import Mathlib

/-!
Verification development for the paperscraper MCP server
(`paperscraper/mcp_server.py`).

The server bridges a fixed catalog of paper-search tools to the Model
Context Protocol.  We shallowly embed the request dispatcher
(`handle_call_tool`), the eight handler adapters, the tool catalog
(`handle_list_tools`) and the temp-file staging discipline.

Modelling conventions:
* Python JSON-ish values are the inductive `JVal`; an arguments mapping
  is an association list `Args`; a loaded paper record (a JSON dict
  produced by `load_jsonl`) is likewise an association list.
* Exceptions are `Except String`; `handle_call_tool`'s try/except is an
  explicit match on the dispatched result.
* Temp files / temp directories (`tempfile.NamedTemporaryFile(delete=False)`
  and `tempfile.TemporaryDirectory`) are ids drawn from a counter in a
  state record `St`; `os.unlink` / directory cleanup removes the id from
  the live set.  try/finally blocks are encoded by performing the
  cleanup on every branch, exactly as the control flow of the source.
* External collaborators (the paperscraper library functions the server
  calls) are fields of an environment record `Env`, with the argument
  shapes the server actually passes.  A search collaborator combines
  `get_and_dump_*` writing to the temp file with the subsequent
  `load_jsonl` read, returning the loaded records.
-/

/-- Python-style JSON values as stored in an MCP arguments mapping or a
paper record loaded by `load_jsonl`. -/
inductive JVal where
  | null : JVal
  | bool : Bool → JVal
  | num : Int → JVal
  | str : String → JVal
  | arr : List JVal → JVal
  | obj : List (String × JVal) → JVal
deriving Repr

/-- An MCP arguments mapping (`Dict[str, Any]`). -/
abbrev Args := List (String × JVal)

/-- A paper record: a JSON dict as returned by `load_jsonl`. -/
abbrev Record := List (String × JVal)

/-- `d.get(k)` / `d[k]`-style lookup on a Python dict. -/
def pyGet (d : List (String × JVal)) (k : String) : Option JVal :=
  d.lookup k

/-- Python truthiness of a `JVal` (`if v:`). -/
def truthy : JVal → Bool
  | .null => false
  | .bool b => b
  | .num n => n != 0
  | .str s => s != ""
  | .arr xs => !xs.isEmpty
  | .obj fs => !fs.isEmpty

/-- Comma-separated join, as in a Python container repr. -/
def commaSep : List String → String
  | [] => ""
  | [x] => x
  | x :: y :: t => x ++ ", " ++ commaSep (y :: t)

mutual

/-- Python `repr` of a `JVal` (element rendering inside containers). -/
def jrepr : JVal → String
  | .null => "None"
  | .bool true => "True"
  | .bool false => "False"
  | .num n => toString n
  | .str s => "\x27" ++ s ++ "\x27"
  | .arr xs => "[" ++ commaSep (jreprList xs) ++ "]"
  | .obj fs => "\x7b" ++ commaSep (jreprFields fs) ++ "\x7d"

/-- `repr` of each element of a list. -/
def jreprList : List JVal → List String
  | [] => []
  | v :: t => jrepr v :: jreprList t

/-- `repr` of each key/value pair of a dict. -/
def jreprFields : List (String × JVal) → List String
  | [] => []
  | (k, v) :: t => ("\x27" ++ k ++ "\x27: " ++ jrepr v) :: jreprFields t

end

/-- Python `str` of a `JVal`, as interpolated by an f-string. -/
def jshow : JVal → String
  | .str s => s
  | v => jrepr v

/-- Thousands grouping of a reversed digit list (for `\x7bn:,\x7d`). -/
def groupDigits : List Char → List Char
  | a :: b :: c :: d :: rest => a :: b :: c :: ',' :: groupDigits (d :: rest)
  | l => l

/-- Python `f"\x7bn:,\x7d"` formatting of a byte count. -/
def commaGroup (n : Nat) : String :=
  String.mk ((groupDigits (toString n).data.reverse).reverse)

/-- Python iteration over a value (`for x in v`): lists yield elements,
strings yield one-character strings, dicts yield their keys; other
values raise `TypeError`. -/
def pyIter : JVal → Except String (List JVal)
  | .arr xs => .ok xs
  | .str s => .ok (s.data.map (fun c => JVal.str (String.singleton c)))
  | .obj fs => .ok (fs.map (fun kv => JVal.str kv.1))
  | .null => .error "TypeError: \x27NoneType\x27 object is not iterable"
  | .bool _ => .error "TypeError: \x27bool\x27 object is not iterable"
  | .num _ => .error "TypeError: \x27int\x27 object is not iterable"

/-- One MCP `TextContent` block (`type` is always `"text"`). -/
structure TextContent where
  type : String
  text : String
deriving Repr, DecidableEq

/-- `TextContent(type="text", text=t)`. -/
def mkText (t : String) : TextContent := ⟨"text", t⟩

/-- Temp-resource state: a freshness counter and the set of live
temp files / directories created via the `tempfile` module. -/
structure St where
  nextId : Nat
  live : List Nat
deriving Repr, DecidableEq

/-- `tempfile.NamedTemporaryFile(delete=False)` / `TemporaryDirectory`:
allocate a fresh temp resource. -/
def newTemp (s : St) : Nat × St :=
  (s.nextId, ⟨s.nextId + 1, s.nextId :: s.live⟩)

/-- `if os.path.exists(temp_file): os.unlink(temp_file)` (and the
directory cleanup performed when a `TemporaryDirectory` scope exits). -/
def unlinkIfExists (tid : Nat) (s : St) : St :=
  if tid ∈ s.live then ⟨s.nextId, s.live.erase tid⟩ else s

/-- Concatenation of the pieces accumulated by `response += ...`. -/
def concatAll : List String → String
  | [] => ""
  | x :: t => x ++ concatAll t

/-- `for i, paper in enumerate(results): f i paper`, starting at `i`. -/
def numbered (f : Nat → Record → String) : Nat → List Record → List String
  | _, [] => []
  | i, r :: t => f i r :: numbered f (i + 1) t

/-- Python `s.upper()` (character-wise, over the char list). -/
def pyUpper (s : String) : String := String.mk (s.data.map Char.toUpper)

/-- Python `s.replace(c, r)` for one-character patterns, as used by
`download_paper_pdf` on the DOI. -/
def pyReplaceChar (s : String) (c r : Char) : String :=
  String.mk (s.data.map (fun x => if x = c then r else x))

/-- Substring occurrence check over the character lists. -/
def charsSub (pat : List Char) : List Char → Bool
  | [] => pat.isEmpty
  | c :: tl => pat.isPrefixOf (c :: tl) || charsSub pat tl

/-- `pat` occurs as a contiguous substring of `s`. -/
def hasSubstr (s pat : String) : Bool :=
  charsSub pat.data s.data

/-- Journal-impact search options built by `search_journal_impact`:
`search_args = {"threshold": ..., "min_impact": ...}` plus an optional
`"max_impact"` entry. -/
structure SearchArgs where
  threshold : JVal
  min_impact : JVal
  max_impact : Option JVal
deriving Repr

/-- External collaborators of the server, with the exact argument
shapes the handlers pass.  Each search collaborator stands for the
paperscraper call that dumps records to the staged temp file followed
by the `load_jsonl` read of that file. -/
structure Env where
  /-- `get_and_dump_pubmed_papers(query, output_filepath, max_results)`
  then `load_jsonl`. -/
  pubmed : JVal → JVal → Except String (List Record)
  /-- `get_and_dump_arxiv_papers(query, output_filepath, max_results)`
  then `load_jsonl`. -/
  arxiv : JVal → JVal → Except String (List Record)
  /-- `get_and_dump_scholar_papers(topic, output_filepath)` then
  `load_jsonl`; note the server passes only the topic. -/
  scholar : JVal → Except String (List Record)
  /-- `QUERY_FN_DICT`: the active preprint-server index; a server name
  maps to its query function (query → staged+loaded records) when a
  local dump was loaded for it. -/
  query_fn_dict : String → Option (JVal → Except String (List Record))
  /-- `get_citations_by_doi(doi)`. -/
  get_citations_by_doi : JVal → Except String JVal
  /-- `get_citations_from_title(title)`. -/
  get_citations_from_title : JVal → Except String JVal
  /-- `Impactor()` construction. -/
  impactor_ctor : Except String Unit
  /-- `impactor.search(journal_name, **search_args)`. -/
  impactor_search : JVal → SearchArgs → Except String (List Record)
  /-- `save_pdf(paper_data, filepath)` returning the `success` flag and,
  when the file exists afterwards, its `os.path.getsize`. -/
  save_pdf : JVal → String → Except String (Bool × Option Nat)
  /-- `biorxiv` / `medrxiv` / `chemrxiv` dump refresh, with the
  `start_date` / `end_date` keyword values when passed. -/
  refresh : String → Option JVal → Option JVal → Except String Unit

/-- The path of the temp directory allocated as resource `tid`. -/
def tempDirPath (tid : Nat) : String := "/tmp/tmpdir" ++ toString tid

/-- One numbered PubMed record entry of `search_pubmed`. -/
def pubmed_entry (i : Nat) (paper : Record) : String :=
  let title := jshow ((pyGet paper "title").getD (.str "No title"))
  let authors := jshow ((pyGet paper "authors").getD (.str "Unknown"))
  let journal := jshow ((pyGet paper "journal").getD (.str "Unknown"))
  let year := jshow ((pyGet paper "date").getD (.str "Unknown"))
  let doiLine :=
    if truthy ((pyGet paper "doi").getD .null) then
      "   DOI: " ++ jshow ((pyGet paper "doi").getD .null) ++ "\n"
    else ""
  toString (i + 1) ++ ". " ++ title ++ "\n"
    ++ "   Authors: " ++ authors ++ "\n"
    ++ "   Journal: " ++ journal ++ "\n"
    ++ "   Year: " ++ year ++ "\n"
    ++ doiLine ++ "\n"

/-- One numbered arXiv record entry of `search_arxiv`. -/
def arxiv_entry (i : Nat) (paper : Record) : String :=
  let title := jshow ((pyGet paper "title").getD (.str "No title"))
  let authors := jshow ((pyGet paper "authors").getD (.str "Unknown"))
  let published := jshow ((pyGet paper "date").getD (.str "Unknown"))
  let doiLine :=
    if truthy ((pyGet paper "doi").getD .null) then
      "   DOI: " ++ jshow ((pyGet paper "doi").getD .null) ++ "\n"
    else ""
  let urlLine :=
    if truthy ((pyGet paper "url").getD .null) then
      "   URL: " ++ jshow ((pyGet paper "url").getD .null) ++ "\n"
    else ""
  toString (i + 1) ++ ". " ++ title ++ "\n"
    ++ "   Authors: " ++ authors ++ "\n"
    ++ "   Published: " ++ published ++ "\n"
    ++ doiLine ++ urlLine ++ "\n"

/-- One numbered Scholar record entry of `search_scholar`. -/
def scholar_entry (i : Nat) (paper : Record) : String :=
  let title := jshow ((pyGet paper "title").getD (.str "No title"))
  let authors := jshow ((pyGet paper "authors").getD (.str "Unknown"))
  let year := jshow ((pyGet paper "date").getD (.str "Unknown"))
  let citLine :=
    if truthy ((pyGet paper "citations").getD .null) then
      "   Citations: " ++ jshow ((pyGet paper "citations").getD .null) ++ "\n"
    else ""
  toString (i + 1) ++ ". " ++ title ++ "\n"
    ++ "   Authors: " ++ authors ++ "\n"
    ++ "   Year: " ++ year ++ "\n"
    ++ citLine ++ "\n"

/-- One numbered record entry of a `search_preprint_servers` section. -/
def preprint_entry (i : Nat) (paper : Record) : String :=
  let title := jshow ((pyGet paper "title").getD (.str "No title"))
  let authors := jshow ((pyGet paper "authors").getD (.str "Unknown"))
  let date := jshow ((pyGet paper "date").getD (.str "Unknown"))
  let doiLine :=
    if truthy ((pyGet paper "doi").getD .null) then
      "     DOI: " ++ jshow ((pyGet paper "doi").getD .null) ++ "\n"
    else ""
  "  " ++ toString (i + 1) ++ ". " ++ title ++ "\n"
    ++ "     Authors: " ++ authors ++ "\n"
    ++ "     Date: " ++ date ++ "\n"
    ++ doiLine ++ "\n"

/-- `if len(results) > k: response += f"... and \x7blen(results) - k\x7d more results\n"`
(shared verbatim by the three single-source search handlers with k = 10). -/
def more_line (n k : Nat) : String :=
  if n > k then "... and " ++ toString (n - k) ++ " more results\n" else ""

/-- Response text built by `search_pubmed` from the loaded records. -/
def pubmed_response (results : List Record) : String :=
  "Found " ++ toString results.length ++ " papers in PubMed\n\n"
    ++ concatAll (numbered pubmed_entry 0 (results.take 10))
    ++ more_line results.length 10

/-- Response text built by `search_arxiv` from the loaded records. -/
def arxiv_response (results : List Record) : String :=
  "Found " ++ toString results.length ++ " papers in arXiv\n\n"
    ++ concatAll (numbered arxiv_entry 0 (results.take 10))
    ++ more_line results.length 10

/-- Response text built by `search_scholar` from the loaded records. -/
def scholar_response (results : List Record) : String :=
  "Found " ++ toString results.length ++ " papers in Google Scholar\n\n"
    ++ concatAll (numbered scholar_entry 0 (results.take 10))
    ++ more_line results.length 10

/-- Per-server section of the `search_preprint_servers` response:
header plus the first five records.  The source appends no
"more results" line here. -/
def preprint_section (name : String) (results : List Record) : String :=
  "\n" ++ pyUpper name ++ ": Found " ++ toString results.length ++ " papers\n"
    ++ concatAll (numbered preprint_entry 0 (results.take 5))

/-- `search_pubmed(arguments)`: stage a temp file, run the PubMed
collaborator, render the response, unlink the temp file in `finally`.
Returns the response text (or the uncaught exception) with the
temp-resource state. -/
def search_pubmed_text (env : Env) (args : Args) (s : St) :
    Except String String × St :=
  match pyGet args "query" with
  | none => (.error "\x27query\x27", s)
  | some query =>
    let maxResults := (pyGet args "max_results").getD (.num 100)
    let (tid, s1) := newTemp s
    match env.pubmed query maxResults with
    | .error e => (.error e, unlinkIfExists tid s1)
    | .ok results => (.ok (pubmed_response results), unlinkIfExists tid s1)

/-- `search_arxiv(arguments)`: same staging discipline as
`search_pubmed` with the arXiv collaborator and renderer. -/
def search_arxiv_text (env : Env) (args : Args) (s : St) :
    Except String String × St :=
  match pyGet args "query" with
  | none => (.error "\x27query\x27", s)
  | some query =>
    let maxResults := (pyGet args "max_results").getD (.num 100)
    let (tid, s1) := newTemp s
    match env.arxiv query maxResults with
    | .error e => (.error e, unlinkIfExists tid s1)
    | .ok results => (.ok (arxiv_response results), unlinkIfExists tid s1)

/-- `search_scholar(arguments)`: reads `topic` and `max_results`
(default 50), but the collaborator call passes only the topic and the
staged output filepath; `max_results` is never used. -/
def search_scholar_text (env : Env) (args : Args) (s : St) :
    Except String String × St :=
  match pyGet args "topic" with
  | none => (.error "\x27topic\x27", s)
  | some topic =>
    let _maxResults := (pyGet args "max_results").getD (.num 50)
    let (tid, s1) := newTemp s
    match env.scholar topic with
    | .error e => (.error e, unlinkIfExists tid s1)
    | .ok results => (.ok (scholar_response results), unlinkIfExists tid s1)

/-- The `for server in servers:` loop of `search_preprint_servers`,
threading the accumulated record list (`all_results`), the accumulated
section text (`response`) and the temp-resource state.  A server not
present in `QUERY_FN_DICT` (or a non-string item) is skipped; an
exception from a query function escapes after the `finally` unlink. -/
def preprint_loop (env : Env) (query : JVal) :
    List JVal → List Record → String → St →
    Except String (List Record × String) × St
  | [], acc, resp, s => (.ok (acc, resp), s)
  | srv :: rest, acc, resp, s =>
    match srv with
    | .str name =>
      match env.query_fn_dict name with
      | some fn =>
        let (tid, s1) := newTemp s
        match fn query with
        | .error e => (.error e, unlinkIfExists tid s1)
        | .ok results =>
          preprint_loop env query rest (acc ++ results)
            (resp ++ preprint_section name results) (unlinkIfExists tid s1)
      | none => preprint_loop env query rest acc resp s
    | _ => preprint_loop env query rest acc resp s

/-- `search_preprint_servers(arguments)`: iterate the requested servers
(default `["biorxiv", "medrxiv", "chemrxiv"]`), then prepend the
combined total line. -/
def search_preprint_servers_text (env : Env) (args : Args) (s : St) :
    Except String String × St :=
  match pyGet args "query" with
  | none => (.error "\x27query\x27", s)
  | some query =>
    let serversV := (pyGet args "servers").getD
      (.arr [.str "biorxiv", .str "medrxiv", .str "chemrxiv"])
    match pyIter serversV with
    | .error e => (.error e, s)
    | .ok servers =>
      match preprint_loop env query servers [] "" s with
      | (.error e, s1) => (.error e, s1)
      | (.ok (allResults, resp), s1) =>
        (.ok ("Total papers found across " ++ toString servers.length
          ++ " servers: " ++ toString allResults.length ++ "\n" ++ resp), s1)

/-- `get_citations(arguments)`: dispatch on the truthiness of `doi`
then `title`; with neither, return the fixed error text.  The
handler's own try/except turns a collaborator exception into an
`Error retrieving citations:` text. -/
def get_citations_text (env : Env) (args : Args) (s : St) :
    Except String String × St :=
  let title := (pyGet args "title").getD .null
  let doi := (pyGet args "doi").getD .null
  let inner : Except String String :=
    if truthy doi then
      match env.get_citations_by_doi doi with
      | .error e => .error e
      | .ok c => .ok ("Citations for DOI " ++ jshow doi ++ ": " ++ jshow c)
    else if truthy title then
      match env.get_citations_from_title title with
      | .error e => .error e
      | .ok c => .ok ("Citations for \x27" ++ jshow title ++ "\x27: " ++ jshow c)
    else
      .ok "Error: Either title or DOI must be provided"
  match inner with
  | .ok t => (.ok t, s)
  | .error e => (.ok ("Error retrieving citations: " ++ e), s)

/-- The `search_args` dict built by `search_journal_impact`:
`threshold` (default 85) and `min_impact` (default 0) always;
`max_impact` added only under `if max_impact:` (Python truthiness of
the looked-up value). -/
def impact_search_args (args : Args) : SearchArgs :=
  let threshold := (pyGet args "threshold").getD (.num 85)
  let minImpact := (pyGet args "min_impact").getD (.num 0)
  let maxImpact := pyGet args "max_impact"
  ⟨threshold, minImpact,
    if truthy (maxImpact.getD .null) then maxImpact else none⟩

/-- Rendering of one impact-search result row; a missing required key
raises `KeyError` into the handler's try/except. -/
def render_impact (r : Record) : Except String String :=
  match pyGet r "journal", pyGet r "factor", pyGet r "score" with
  | some j, some f, some sc =>
    .ok ("• " ++ jshow j ++ "\n  Impact Factor: " ++ jshow f
      ++ "\n  Match Score: " ++ jshow sc ++ "%\n\n")
  | none, _, _ => .error "\x27journal\x27"
  | _, none, _ => .error "\x27factor\x27"
  | _, _, none => .error "\x27score\x27"

/-- `search_journal_impact(arguments)`: `journal_name` is read before
the try block (a missing key escapes); everything else is inside the
handler's try/except. -/
def search_journal_impact_text (env : Env) (args : Args) (s : St) :
    Except String String × St :=
  match pyGet args "journal_name" with
  | none => (.error "\x27journal_name\x27", s)
  | some jn =>
    let inner : Except String String :=
      match env.impactor_ctor with
      | .error e => .error e
      | .ok _ =>
        match env.impactor_search jn (impact_search_args args) with
        | .error e => .error e
        | .ok results =>
          if results.isEmpty then
            .ok ("No journals found matching \x27" ++ jshow jn ++ "\x27")
          else
            match results.mapM render_impact with
            | .error e => .error e
            | .ok rows =>
              .ok ("Found " ++ toString results.length
                ++ " journal(s) matching \x27" ++ jshow jn ++ "\x27:\n\n"
                ++ concatAll rows)
    match inner with
    | .ok t => (.ok t, s)
    | .error e => (.ok ("Error searching journal impact: " ++ e), s)

/-- `download_paper_pdf(arguments)`: `doi` is read before the try block
(a missing key escapes); the default filename replaces `/` by `_` in
the DOI and appends `.pdf`; the temporary directory is destroyed when
its scope exits, before the handler's own except clause runs. -/
def download_paper_pdf_text (env : Env) (args : Args) (s : St) :
    Except String String × St :=
  match pyGet args "doi" with
  | none => (.error "\x27doi\x27", s)
  | some doi =>
    let filename :=
      match pyGet args "filename" with
      | some v => jshow v
      | none => pyReplaceChar (jshow doi) '/' '_' ++ ".pdf"
    let (tid, s1) := newTemp s
    let filepath := tempDirPath tid ++ "/" ++ filename
    let s2 := unlinkIfExists tid s1
    match env.save_pdf doi filepath with
    | .error e => (.ok ("Error downloading PDF: " ++ e), s2)
    | .ok (success, sizeIfExists) =>
      match success, sizeIfExists with
      | true, some size =>
        (.ok ("Successfully downloaded PDF for DOI: " ++ jshow doi ++ "\n"
          ++ "File size: " ++ commaGroup size ++ " bytes\n"
          ++ "Saved to temporary location: " ++ filepath), s2)
      | _, _ =>
        (.ok ("Failed to download PDF for DOI: " ++ jshow doi), s2)

/-- Which refresh collaborator (if any) the `update_preprint_dumps`
loop body invokes for one requested server: the three known names
dispatch to their refresher, with the date range only under
`if start_date or end_date:`; any other item falls through all
branches and invokes nothing. -/
def refresh_for (env : Env) (srv : JVal) (sd ed : Option JVal) :
    Except String Unit :=
  let withDates := truthy ((sd.getD .null)) || truthy ((ed.getD .null))
  match srv with
  | .str name =>
    if name = "biorxiv" then
      if withDates then env.refresh "biorxiv" sd ed
      else env.refresh "biorxiv" none none
    else if name = "medrxiv" then
      if withDates then env.refresh "medrxiv" sd ed
      else env.refresh "medrxiv" none none
    else if name = "chemrxiv" then
      if withDates then env.refresh "chemrxiv" sd ed
      else env.refresh "chemrxiv" none none
    else .ok ()
  | _ => .ok ()

/-- One iteration of the `update_preprint_dumps` loop: the
`Updating \x7bserver\x7d... ` prefix, then `✓ Complete` or the caught
`✗ Error:` text. -/
def update_segment (env : Env) (sd ed : Option JVal) (srv : JVal) : String :=
  match refresh_for env srv sd ed with
  | .ok _ => "Updating " ++ jshow srv ++ "... ✓ Complete\n"
  | .error e => "Updating " ++ jshow srv ++ "... ✗ Error: " ++ e ++ "\n"

/-- `update_preprint_dumps(arguments)`: per-server ✓/✗ segments between
a fixed header and the restart reminder; a failing server does not stop
the loop. -/
def update_preprint_dumps_text (env : Env) (args : Args) (s : St) :
    Except String String × St :=
  let serversV := (pyGet args "servers").getD
    (.arr [.str "biorxiv", .str "medrxiv", .str "chemrxiv"])
  let sd := pyGet args "start_date"
  let ed := pyGet args "end_date"
  match pyIter serversV with
  | .error e => (.error e, s)
  | .ok servers =>
    (.ok ("Updating preprint server dumps...\n\n"
      ++ concatAll (servers.map (update_segment env sd ed))
      ++ "\nDump update process finished. Please restart to use updated dumps."),
     s)

/-- Wrap a handler's text-or-exception outcome as the handler's
`List[TextContent]` return value: every successful handler returns
exactly one text block. -/
def wrapText (p : Except String String × St) :
    Except String (List TextContent) × St :=
  (p.1.map (fun t => [mkText t]), p.2)

/-- The body of `handle_call_tool`'s try block: the name-dispatch
chain; an unregistered name raises
`ValueError(f"Unknown tool: \x7bname\x7d")`. -/
def dispatch_try (env : Env) (name : String) (args : Args) (s : St) :
    Except String (List TextContent) × St :=
  if name = "search_pubmed" then wrapText (search_pubmed_text env args s)
  else if name = "search_arxiv" then wrapText (search_arxiv_text env args s)
  else if name = "search_scholar" then wrapText (search_scholar_text env args s)
  else if name = "search_preprint_servers" then
    wrapText (search_preprint_servers_text env args s)
  else if name = "get_citations" then wrapText (get_citations_text env args s)
  else if name = "search_journal_impact" then
    wrapText (search_journal_impact_text env args s)
  else if name = "download_paper_pdf" then
    wrapText (download_paper_pdf_text env args s)
  else if name = "update_preprint_dumps" then
    wrapText (update_preprint_dumps_text env args s)
  else (.error ("Unknown tool: " ++ name), s)

/-- `handle_call_tool(name, arguments)`: the dispatcher with its
enclosing `except Exception as e:` rendering any escaped exception as
the single block `Error: \x7be\x7d`.  Totality of this function is the
"never raises" guarantee. -/
def handle_call_tool (env : Env) (name : String) (args : Args) (s : St) :
    List TextContent × St :=
  match dispatch_try env name args s with
  | (.ok v, s1) => (v, s1)
  | (.error e, s1) => ([mkText ("Error: " ++ e)], s1)

/-- An MCP tool descriptor (`mcp.types.Tool`). -/
structure Tool where
  name : String
  description : String
  inputSchema : JVal
deriving Repr

/-- The shared `query` property schema of the keyword-search tools. -/
def queryPropSchema (desc : String) : JVal :=
  .obj [("type", .str "array"),
        ("description", .str desc),
        ("items", .obj [("type", .str "array"),
                        ("items", .obj [("type", .str "string")])])]

/-- `handle_list_tools()`: the static eight-tool catalog, in source
order, with each descriptor's input schema. -/
def handle_list_tools : List Tool :=
  [⟨"search_pubmed",
    "Search for papers in PubMed database using keyword queries",
    .obj [("type", .str "object"),
          ("properties", .obj
            [("query", queryPropSchema "List of keyword groups for AND/OR search. Each group contains synonyms (OR), groups are combined with AND"),
             ("max_results", .obj
               [("type", .str "integer"),
                ("description", .str "Maximum number of results to return"),
                ("default", .num 100)])]),
          ("required", .arr [.str "query"])]⟩,
   ⟨"search_arxiv",
    "Search for papers in arXiv database using keyword queries",
    .obj [("type", .str "object"),
          ("properties", .obj
            [("query", queryPropSchema "List of keyword groups for AND/OR search. Each group contains synonyms (OR), groups are combined with AND"),
             ("max_results", .obj
               [("type", .str "integer"),
                ("description", .str "Maximum number of results to return"),
                ("default", .num 100)])]),
          ("required", .arr [.str "query"])]⟩,
   ⟨"search_scholar",
    "Search for papers in Google Scholar using a topic query",
    .obj [("type", .str "object"),
          ("properties", .obj
            [("topic", .obj
               [("type", .str "string"),
                ("description", .str "Topic to search for (like Google Scholar search)")]),
             ("max_results", .obj
               [("type", .str "integer"),
                ("description", .str "Maximum number of results to return"),
                ("default", .num 50)])]),
          ("required", .arr [.str "topic"])]⟩,
   ⟨"search_preprint_servers",
    "Search bioRxiv, medRxiv, and chemRxiv preprint servers",
    .obj [("type", .str "object"),
          ("properties", .obj
            [("query", queryPropSchema "List of keyword groups for AND/OR search"),
             ("servers", .obj
               [("type", .str "array"),
                ("description", .str "Which preprint servers to search"),
                ("items", .obj
                  [("type", .str "string"),
                   ("enum", .arr [.str "biorxiv", .str "medrxiv", .str "chemrxiv"])]),
                ("default", .arr [.str "biorxiv", .str "medrxiv", .str "chemrxiv"])])]),
          ("required", .arr [.str "query"])]⟩,
   ⟨"get_citations",
    "Get citation count for a paper by title or DOI",
    .obj [("type", .str "object"),
          ("properties", .obj
            [("title", .obj
               [("type", .str "string"),
                ("description", .str "Paper title to search for citations")]),
             ("doi", .obj
               [("type", .str "string"),
                ("description", .str "DOI of the paper")])]),
          ("required", .arr [])]⟩,
   ⟨"search_journal_impact",
    "Search for journal impact factors",
    .obj [("type", .str "object"),
          ("properties", .obj
            [("journal_name", .obj
               [("type", .str "string"),
                ("description", .str "Journal name to search for")]),
             ("threshold", .obj
               [("type", .str "integer"),
                ("description", .str "Fuzzy search threshold (100 = exact match)"),
                ("default", .num 85)]),
             ("min_impact", .obj
               [("type", .str "number"),
                ("description", .str "Minimum impact factor"),
                ("default", .num 0)]),
             ("max_impact", .obj
               [("type", .str "number"),
                ("description", .str "Maximum impact factor")])]),
          ("required", .arr [.str "journal_name"])]⟩,
   ⟨"download_paper_pdf",
    "Download PDF of a paper using its DOI",
    .obj [("type", .str "object"),
          ("properties", .obj
            [("doi", .obj
               [("type", .str "string"),
                ("description", .str "DOI of the paper to download")]),
             ("filename", .obj
               [("type", .str "string"),
                ("description", .str "Optional filename for the PDF")])]),
          ("required", .arr [.str "doi"])]⟩,
   ⟨"update_preprint_dumps",
    "Update local dumps of preprint servers (biorxiv, medrxiv, chemrxiv)",
    .obj [("type", .str "object"),
          ("properties", .obj
            [("servers", .obj
               [("type", .str "array"),
                ("description", .str "Which servers to update"),
                ("items", .obj
                  [("type", .str "string"),
                   ("enum", .arr [.str "biorxiv", .str "medrxiv", .str "chemrxiv"])]),
                ("default", .arr [.str "biorxiv", .str "medrxiv", .str "chemrxiv"])]),
             ("start_date", .obj
               [("type", .str "string"),
                ("description", .str "Start date for selective update (YYYY-MM-DD)")]),
             ("end_date", .obj
               [("type", .str "string"),
                ("description", .str "End date for selective update (YYYY-MM-DD)")])])]⟩]

/-- The eight registered tool names, in dispatch order. -/
def toolNames : List String :=
  ["search_pubmed", "search_arxiv", "search_scholar",
   "search_preprint_servers", "get_citations", "search_journal_impact",
   "download_paper_pdf", "update_preprint_dumps"]

/-- A concrete trivial environment used for closed evaluations: every
collaborator succeeds with an empty result and no preprint dump is
loaded. -/
def envDefault : Env :=
  ⟨fun _ _ => .ok [], fun _ _ => .ok [], fun _ => .ok [],
   fun _ => none, fun _ => .ok (.num 0), fun _ => .ok (.num 0),
   .ok (), fun _ _ => .ok [], fun _ _ => .ok (false, none),
   fun _ _ _ => .ok ()⟩

/-- The initial temp-resource state. -/
def st0 : St := ⟨0, []⟩

/-- Sample record lists used in closed evaluations. -/
def recs (n : Nat) : List Record := List.replicate n []

/-- An environment whose preprint index has only `biorxiv` loaded,
yielding six records; all other collaborators are trivial. -/
def envBio6 : Env :=
  ⟨fun _ _ => .ok [], fun _ _ => .ok [], fun _ => .ok [],
   fun n => if n = "biorxiv" then some (fun _ => .ok (recs 6)) else none,
   fun _ => .ok (.num 0), fun _ => .ok (.num 0),
   .ok (), fun _ _ => .ok [], fun _ _ => .ok (false, none),
   fun _ _ _ => .ok ()⟩

/-- The per-server result assignment realised by `envBio6`. -/
def resBio : String → List Record := fun n => if n = "biorxiv" then recs 6 else []

/-- Concrete arguments requesting `biorxiv` and `chemrxiv`. -/
def preprintArgsW : Args :=
  [("query", .arr []), ("servers", .arr (["biorxiv", "chemrxiv"].map JVal.str))]

theorem numbered_length (f : Nat → Record → String) :
    ∀ (i : Nat) (l : List Record), (numbered f i l).length = l.length := by
  intro i l
  induction l generalizing i with
  | nil => rfl
  | cons r t ih => simp [numbered, ih]

theorem wrapText_ok_shape (p : Except String String × St)
    (v : List TextContent) (s1 : St) (h : wrapText p = (.ok v, s1)) :
    ∃ t, v = [mkText t] := by
  rcases p with ⟨r, st⟩
  cases r with
  | ok t =>
    simp only [wrapText, Except.map, Prod.mk.injEq, Except.ok.injEq] at h
    exact ⟨t, h.1.symm⟩
  | error e => simp [wrapText, Except.map] at h

theorem unlink_newTemp (s : St) :
    unlinkIfExists (newTemp s).1 (newTemp s).2 = ⟨s.nextId + 1, s.live⟩ := by
  simp [newTemp, unlinkIfExists]


theorem search_pubmed_text_live (env : Env) (args : Args) (s : St) :
    ((search_pubmed_text env args s).2).live = s.live := by
  unfold search_pubmed_text
  cases hq : pyGet args "query" with
  | none => rfl
  | some q =>
    dsimp only [newTemp]
    cases hE : env.pubmed q ((pyGet args "max_results").getD (JVal.num 100)) <;>
      simp [hE, unlinkIfExists]

theorem search_arxiv_text_live (env : Env) (args : Args) (s : St) :
    ((search_arxiv_text env args s).2).live = s.live := by
  unfold search_arxiv_text
  cases hq : pyGet args "query" with
  | none => rfl
  | some q =>
    dsimp only [newTemp]
    cases hE : env.arxiv q ((pyGet args "max_results").getD (JVal.num 100)) <;>
      simp [hE, unlinkIfExists]

theorem search_scholar_text_live (env : Env) (args : Args) (s : St) :
    ((search_scholar_text env args s).2).live = s.live := by
  unfold search_scholar_text
  cases hq : pyGet args "topic" with
  | none => rfl
  | some topic =>
    dsimp only [newTemp]
    cases hE : env.scholar topic <;> simp [hE, unlinkIfExists]

theorem preprint_loop_live (env : Env) (q : JVal) :
    ∀ (servers : List JVal) (acc : List Record) (resp : String) (s : St),
      ((preprint_loop env q servers acc resp s).2).live = s.live := by
  intro servers
  induction servers with
  | nil => intro acc resp s; rfl
  | cons srv rest ih =>
    intro acc resp s
    cases srv with
    | str name =>
      simp only [preprint_loop]
      cases h : env.query_fn_dict name with
      | none => exact ih acc resp s
      | some fn =>
        dsimp only [newTemp]
        cases hr : fn q with
        | error e => simp [hr, unlinkIfExists]
        | ok results => simp [hr, unlinkIfExists, ih]
    | null => exact ih acc resp s
    | bool b => exact ih acc resp s
    | num n => exact ih acc resp s
    | arr xs => exact ih acc resp s
    | obj fs => exact ih acc resp s

theorem search_preprint_servers_text_live (env : Env) (args : Args) (s : St) :
    ((search_preprint_servers_text env args s).2).live = s.live := by
  unfold search_preprint_servers_text
  cases hq : pyGet args "query" with
  | none => rfl
  | some q =>
    dsimp only
    cases hI : pyIter ((pyGet args "servers").getD
        (.arr [.str "biorxiv", .str "medrxiv", .str "chemrxiv"])) with
    | error e => rfl
    | ok servers =>
      have hl := preprint_loop_live env q servers [] "" s
      rcases hL : preprint_loop env q servers [] "" s with ⟨r, s1⟩
      rw [hL] at hl
      cases r <;> simp [hI, hL] <;> exact hl

theorem get_citations_text_live (env : Env) (args : Args) (s : St) :
    ((get_citations_text env args s).2).live = s.live := by
  unfold get_citations_text
  dsimp only
  split <;> rfl

theorem search_journal_impact_text_live (env : Env) (args : Args) (s : St) :
    ((search_journal_impact_text env args s).2).live = s.live := by
  unfold search_journal_impact_text
  cases hj : pyGet args "journal_name" with
  | none => rfl
  | some jn =>
    dsimp only
    split <;> rfl

theorem download_paper_pdf_text_live (env : Env) (args : Args) (s : St) :
    ((download_paper_pdf_text env args s).2).live = s.live := by
  unfold download_paper_pdf_text
  cases hd : pyGet args "doi" with
  | none => rfl
  | some doi =>
    dsimp only [newTemp]
    cases hf : pyGet args "filename" with
    | some v =>
      cases hS : env.save_pdf doi (tempDirPath s.nextId ++ "/" ++ jshow v) with
      | error e => simp [hS, unlinkIfExists]
      | ok p =>
        rcases p with ⟨success, sizeOpt⟩
        cases success <;> cases sizeOpt <;> simp [hS, unlinkIfExists]
    | none =>
      cases hS : env.save_pdf doi (tempDirPath s.nextId ++ "/"
          ++ (pyReplaceChar (jshow doi) '/' '_' ++ ".pdf")) with
      | error e => simp [hS, unlinkIfExists]
      | ok p =>
        rcases p with ⟨success, sizeOpt⟩
        cases success <;> cases sizeOpt <;> simp [hS, unlinkIfExists]

theorem update_preprint_dumps_text_live (env : Env) (args : Args) (s : St) :
    ((update_preprint_dumps_text env args s).2).live = s.live := by
  unfold update_preprint_dumps_text
  dsimp only
  split <;> rfl

theorem dispatch_try_live (env : Env) (name : String) (args : Args) (s : St) :
    ((dispatch_try env name args s).2).live = s.live := by
  unfold dispatch_try
  split_ifs <;>
    simp [wrapText, search_pubmed_text_live, search_arxiv_text_live,
      search_scholar_text_live, search_preprint_servers_text_live,
      get_citations_text_live, search_journal_impact_text_live,
      download_paper_pdf_text_live, update_preprint_dumps_text_live]

theorem dispatch_try_ok_shape (env : Env) (name : String) (args : Args)
    (s : St) (v : List TextContent) (s1 : St)
    (h : dispatch_try env name args s = (.ok v, s1)) : ∃ t, v = [mkText t] := by
  unfold dispatch_try at h
  split_ifs at h <;>
    first
      | exact wrapText_ok_shape _ v s1 h
      | simp at h

theorem concatAll_append (l1 l2 : List String) :
    concatAll (l1 ++ l2) = concatAll l1 ++ concatAll l2 := by
  induction l1 with
  | nil => simp [concatAll]
  | cons x t ih => simp [concatAll, ih, String.append_assoc]

theorem preprint_loop_ok (env : Env) (q : JVal) (res : String → List Record)
    (hok : ∀ n fn, env.query_fn_dict n = some fn → fn q = .ok (res n)) :
    ∀ (names : List String) (acc : List Record) (resp : String) (s : St),
      preprint_loop env q (names.map JVal.str) acc resp s
        = (.ok (acc ++ ((names.filter fun n => (env.query_fn_dict n).isSome).map res).flatten,
                resp ++ concatAll ((names.filter fun n => (env.query_fn_dict n).isSome).map
                  fun n => preprint_section n (res n))),
           ⟨s.nextId + (names.filter fun n => (env.query_fn_dict n).isSome).length,
            s.live⟩) := by
  intro names
  induction names with
  | nil => intro acc resp s; simp [preprint_loop, concatAll]
  | cons n rest ih =>
    intro acc resp s
    simp only [List.map, preprint_loop]
    cases h : env.query_fn_dict n with
    | none =>
      rw [ih acc resp s]
      simp [List.filter_cons, h]
    | some fn =>
      dsimp only [newTemp]
      rw [hok n fn h]
      simp only [unlinkIfExists, List.mem_cons, eq_self_iff_true, true_or,
        if_true, List.erase_cons_head]
      rw [ih (acc ++ res n) (resp ++ preprint_section n (res n)) ⟨s.nextId + 1, s.live⟩]
      simp [List.filter_cons, h, concatAll, List.append_assoc,
        String.append_assoc, Nat.add_comm, Nat.add_assoc, Nat.add_left_comm]

/-- C1: for every tool name (registered or not) and every arguments
mapping, `handle_call_tool` returns a non-empty list of text blocks —
never raising, since the embedding is a total function — and any
exception escaping the dispatched handler is rendered as the single
block `Error: \x7bmessage\x7d`. -/
theorem handle_call_tool_total_and_contained (env : Env) (name : String)
    (args : Args) (s : St) :
    (handle_call_tool env name args s).1 ≠ []
  ∧ ∀ e s1, dispatch_try env name args s = (.error e, s1) →
      handle_call_tool env name args s = ([mkText ("Error: " ++ e)], s1) := by
  constructor
  · rcases h : dispatch_try env name args s with ⟨r, s1⟩
    cases r with
    | ok v =>
      obtain ⟨t, rfl⟩ := dispatch_try_ok_shape env name args s v s1 h
      simp [handle_call_tool, h]
    | error e => simp [handle_call_tool, h]
  · intro e s1 h
    simp [handle_call_tool, h]

/-- Witness for C1 at a concrete input: calling `search_pubmed` with no
arguments raises `KeyError(\x27query\x27)` inside the handler, and the
dispatcher renders it as the single `Error:` block. -/
theorem handle_call_tool_total_witness :
    handle_call_tool envDefault "search_pubmed" [] st0
      = ([mkText "Error: \x27query\x27"], st0)
  ∧ (handle_call_tool envDefault "search_pubmed" [] st0).1 ≠ [] := by
  have h := handle_call_tool_total_and_contained envDefault "search_pubmed" [] st0
  exact ⟨h.2 "\x27query\x27" st0 rfl, h.1⟩

/-- C2 counterexample: for the unregistered name `bogus`, the returned
block text is `Error: Unknown tool: bogus`, not the bare
`Unknown tool: bogus` the claim states. -/
theorem unknown_tool_counterexample :
    (handle_call_tool envDefault "bogus" [] st0).1
      = [mkText "Error: Unknown tool: bogus"]
  ∧ "Error: Unknown tool: bogus" ≠ "Unknown tool: bogus" :=
  ⟨rfl, by decide⟩

/-- C2 (amended): for every name not among the eight registered tool
names and every arguments mapping, the dispatcher returns exactly one
text block whose text is exactly `Error: Unknown tool: \x7bname\x7d`
(the `ValueError` raised by the dispatch chain, rendered by the
enclosing except clause). -/
theorem unknown_tool_error_text (env : Env) (name : String) (args : Args)
    (s : St) (h : name ∉ toolNames) :
    handle_call_tool env name args s
      = ([mkText ("Error: Unknown tool: " ++ name)], s) := by
  simp only [toolNames, List.mem_cons, List.not_mem_nil, or_false, not_or] at h
  obtain ⟨h1, h2, h3, h4, h5, h6, h7, h8⟩ := h
  simp only [handle_call_tool, dispatch_try, h1, h2, h3, h4, h5, h6, h7, h8,
    if_false, ite_false]
  rw [← String.append_assoc]
  rfl

/-- Witness for C2 (amended) at the concrete name `bogus`. -/
theorem unknown_tool_error_text_witness :
    ("bogus" ∉ toolNames)
  ∧ handle_call_tool envDefault "bogus" [("x", .num 1)] st0
      = ([mkText "Error: Unknown tool: bogus"], st0) :=
  ⟨by decide, unknown_tool_error_text envDefault "bogus" [("x", .num 1)] st0 (by decide)⟩

/-- C3: for every tool call, on every exit path, the set of live
temporary files/directories after the call equals the set before it:
every temp resource created during the call is released before the
call returns, so none is visible to a later call. -/
theorem temp_resources_all_released (env : Env) (name : String) (args : Args)
    (s : St) : ((handle_call_tool env name args s).2).live = s.live := by
  rcases h : dispatch_try env name args s with ⟨r, s1⟩
  have hl := dispatch_try_live env name args s
  rw [h] at hl
  cases r <;> simp [handle_call_tool, h] <;> exact hl

/-- C8: `handle_list_tools` returns exactly eight descriptors whose
names are, in order: search_pubmed, search_arxiv, search_scholar,
search_preprint_servers, get_citations, search_journal_impact,
download_paper_pdf, update_preprint_dumps. -/
theorem tool_catalog_eight_names :
    handle_list_tools.length = 8
  ∧ handle_list_tools.map Tool.name
      = ["search_pubmed", "search_arxiv", "search_scholar",
         "search_preprint_servers", "get_citations", "search_journal_impact",
         "download_paper_pdf", "update_preprint_dumps"] :=
  ⟨rfl, rfl⟩

/-- C4 (amended): the three single-source search handlers render
exactly min(n, 10) numbered entries and append the
`... and \x7bn - 10\x7d more results` line exactly when n > 10; each
`search_preprint_servers` section renders exactly min(n, 5) numbered
entries and consists only of its header and those entries — the source
appends no more-results report there. -/
theorem truncation_law (rs : List Record) (srv : String) :
    (numbered pubmed_entry 0 (rs.take 10)).length = min rs.length 10
  ∧ (numbered arxiv_entry 0 (rs.take 10)).length = min rs.length 10
  ∧ (numbered scholar_entry 0 (rs.take 10)).length = min rs.length 10
  ∧ pubmed_response rs
      = "Found " ++ toString rs.length ++ " papers in PubMed\n\n"
        ++ concatAll (numbered pubmed_entry 0 (rs.take 10))
        ++ more_line rs.length 10
  ∧ (rs.length > 10 → more_line rs.length 10
      = "... and " ++ toString (rs.length - 10) ++ " more results\n")
  ∧ (rs.length ≤ 10 → more_line rs.length 10 = "")
  ∧ (numbered preprint_entry 0 (rs.take 5)).length = min rs.length 5
  ∧ preprint_section srv rs
      = "\n" ++ pyUpper srv ++ ": Found " ++ toString rs.length ++ " papers\n"
        ++ concatAll (numbered preprint_entry 0 (rs.take 5)) := by
  refine ⟨?_, ?_, ?_, rfl, ?_, ?_, ?_, rfl⟩
  · rw [numbered_length, List.length_take, Nat.min_comm]
  · rw [numbered_length, List.length_take, Nat.min_comm]
  · rw [numbered_length, List.length_take, Nat.min_comm]
  · intro h; simp only [more_line, gt_iff_lt]; rw [if_pos h]
  · intro h; simp only [more_line, gt_iff_lt]; rw [if_neg (by omega)]
  · rw [numbered_length, List.length_take, Nat.min_comm]

set_option maxRecDepth 200000 in
/-- C4 counterexample: a preprint-server section built from six records
(n = 6 > 5 = k) contains no "more results" report anywhere, refuting
the claimed trailing line for `search_preprint_servers`. -/
theorem truncation_law_counterexample :
    (recs 6).length > 5
  ∧ hasSubstr (preprint_section "biorxiv" (recs 6)) "more results" = false :=
  ⟨by decide, by decide⟩

/-- Witness for C4 at twelve records: ten entries and the
`... and 2 more results` line. -/
theorem truncation_law_witness :
    (numbered pubmed_entry 0 ((recs 12).take 10)).length = min (recs 12).length 10
  ∧ more_line (recs 12).length 10
      = "... and " ++ toString ((recs 12).length - 10) ++ " more results\n" :=
  ⟨(truncation_law (recs 12) "x").1,
   (truncation_law (recs 12) "x").2.2.2.2.1 (by decide)⟩

/-- C5: `search_preprint_servers` queries only the requested servers
present in the active index `QUERY_FN_DICT`; the response consists of
sections for exactly the active requested servers (none for an
inactive one), and the reported total record count is the sum of the
result counts of the active requested servers alone. -/
theorem preprint_servers_active_only (env : Env) (q : JVal) (args : Args)
    (s : St) (names : List String) (res : String → List Record)
    (hq : pyGet args "query" = some q)
    (hs : pyGet args "servers" = some (.arr (names.map JVal.str)))
    (hok : ∀ n fn, env.query_fn_dict n = some fn → fn q = .ok (res n)) :
    search_preprint_servers_text env args s
      = (.ok ("Total papers found across " ++ toString names.length
            ++ " servers: "
            ++ toString (((names.filter fun n => (env.query_fn_dict n).isSome).map
                 fun n => (res n).length).sum)
            ++ "\n"
            ++ concatAll ((names.filter fun n => (env.query_fn_dict n).isSome).map
                 fun n => preprint_section n (res n))),
         ⟨s.nextId + (names.filter fun n => (env.query_fn_dict n).isSome).length,
          s.live⟩) := by
  unfold search_preprint_servers_text
  rw [hq]
  dsimp only
  rw [hs]
  dsimp only [Option.getD, pyIter]
  rw [preprint_loop_ok env q res hok names [] "" s]
  simp only [List.nil_append, List.length_map, List.length_flatten,
    List.map_map, Function.comp, String.empty_append]
  rfl

/-- Witness for C5: requesting `[biorxiv, chemrxiv]` against an index
where only `biorxiv` is loaded (with six records) yields the section
and count for `biorxiv` alone. -/
theorem preprint_servers_active_only_witness :
    search_preprint_servers_text envBio6 preprintArgsW st0
      = (.ok ("Total papers found across "
            ++ toString (["biorxiv", "chemrxiv"].length) ++ " servers: "
            ++ toString (((["biorxiv", "chemrxiv"].filter
                 fun n => (envBio6.query_fn_dict n).isSome).map
                 fun n => (resBio n).length).sum)
            ++ "\n"
            ++ concatAll ((["biorxiv", "chemrxiv"].filter
                 fun n => (envBio6.query_fn_dict n).isSome).map
                 fun n => preprint_section n (resBio n))),
         ⟨st0.nextId + (["biorxiv", "chemrxiv"].filter
             fun n => (envBio6.query_fn_dict n).isSome).length,
          st0.live⟩) := by
  refine preprint_servers_active_only envBio6 (.arr []) preprintArgsW st0
    ["biorxiv", "chemrxiv"] resBio rfl rfl ?_
  intro n fn h
  by_cases hb : n = "biorxiv"
  · subst hb
    simp only [envBio6, reduceIte, Option.some.injEq] at h
    subst h
    rfl
  · simp [envBio6, hb] at h

/-- C6 (amended): the options object handed to `impactor.search` always
contains `threshold` (default 85) and `min_impact` (default 0); it
contains `max_impact` exactly when the `max_impact` argument is present
with a truthy value (the source guards with `if max_impact:`, so a
present-but-falsy value such as 0 is omitted), and then carries that
value unchanged. -/
theorem impact_search_args_contents (args : Args) :
    (impact_search_args args).threshold = (pyGet args "threshold").getD (.num 85)
  ∧ (impact_search_args args).min_impact = (pyGet args "min_impact").getD (.num 0)
  ∧ ((impact_search_args args).max_impact.isSome
      ↔ ∃ v, pyGet args "max_impact" = some v ∧ truthy v = true)
  ∧ ∀ v, pyGet args "max_impact" = some v → truthy v = true →
      (impact_search_args args).max_impact = some v := by
  refine ⟨rfl, rfl, ?_, ?_⟩
  · cases hm : pyGet args "max_impact" with
    | none => simp [impact_search_args, hm, truthy]
    | some v =>
      by_cases ht : truthy v = true
      · simp [impact_search_args, hm, ht]
      · simp [impact_search_args, hm, ht]
  · intro v hm ht
    simp [impact_search_args, hm, ht]

/-- C6 counterexample: with `max_impact = 0` present in the arguments,
the built options object omits `max_impact`, refuting the claimed
presence iff key-presence. -/
theorem impact_search_args_counterexample :
    pyGet [("max_impact", JVal.num 0)] "max_impact" = some (JVal.num 0)
  ∧ (impact_search_args [("max_impact", JVal.num 0)]).max_impact = none :=
  ⟨rfl, rfl⟩

/-- Witness for C6 at a truthy `max_impact`: the value 3 is present and
carried into the options object, with the defaults in place. -/
theorem impact_search_args_witness :
    (impact_search_args [("max_impact", JVal.num 3)]).max_impact
      = some (JVal.num 3)
  ∧ (impact_search_args [("max_impact", JVal.num 3)]).threshold
      = (pyGet [("max_impact", JVal.num 3)] "threshold").getD (.num 85) :=
  ⟨(impact_search_args_contents [("max_impact", JVal.num 3)]).2.2.2
      (JVal.num 3) rfl (by decide),
   (impact_search_args_contents [("max_impact", JVal.num 3)]).1⟩

/-- C7: calling `get_citations` with arguments containing neither
`title` nor `doi` returns exactly one text block reading
`Error: Either title or DOI must be provided`; the result is the same
for every environment, so neither citation collaborator is invoked. -/
theorem get_citations_neither_key (env : Env) (args : Args) (s : St)
    (ht : pyGet args "title" = none) (hd : pyGet args "doi" = none) :
    handle_call_tool env "get_citations" args s
      = ([mkText "Error: Either title or DOI must be provided"], s) := by
  simp [handle_call_tool, dispatch_try, wrapText, get_citations_text,
    ht, hd, truthy, Except.map]

/-- Witness for C7 at the empty arguments mapping. -/
theorem get_citations_neither_key_witness :
    pyGet ([] : Args) "title" = none
  ∧ pyGet ([] : Args) "doi" = none
  ∧ handle_call_tool envDefault "get_citations" [] st0
      = ([mkText "Error: Either title or DOI must be provided"], st0) :=
  ⟨rfl, rfl, get_citations_neither_key envDefault [] st0 rfl rfl⟩

theorem concatAll_split (x : String) (l : List String) (h : x ∈ l) :
    ∃ p q, concatAll l = p ++ x ++ q := by
  obtain ⟨l1, l2, rfl⟩ := List.append_of_mem h
  refine ⟨concatAll l1, concatAll l2, ?_⟩
  rw [concatAll_append]
  simp [concatAll, String.append_assoc]

/-- C9: for a requested server name outside biorxiv/medrxiv/chemrxiv,
the `update_preprint_dumps` loop body falls through every dispatch
branch — invoking no refresh collaborator, as the segment is the same
for every environment — yet the response still contains the line
`Updating \x7bserver\x7d... ✓ Complete` reporting success for it. -/
theorem update_unknown_server_success (env : Env) (args : Args) (s : St)
    (srv : String) (servers : List JVal)
    (hit : pyIter ((pyGet args "servers").getD
        (.arr [.str "biorxiv", .str "medrxiv", .str "chemrxiv"])) = .ok servers)
    (hmem : JVal.str srv ∈ servers)
    (hunk : srv ∉ (["biorxiv", "medrxiv", "chemrxiv"] : List String)) :
    update_segment env (pyGet args "start_date") (pyGet args "end_date")
        (.str srv)
      = "Updating " ++ srv ++ "... ✓ Complete\n"
  ∧ ∃ p q, update_preprint_dumps_text env args s
      = (.ok (p ++ ("Updating " ++ srv ++ "... ✓ Complete\n") ++ q), s) := by
  simp only [List.mem_cons, List.not_mem_nil, or_false, not_or] at hunk
  obtain ⟨h1, h2, h3⟩ := hunk
  have hseg : update_segment env (pyGet args "start_date")
      (pyGet args "end_date") (.str srv)
      = "Updating " ++ srv ++ "... ✓ Complete\n" := by
    simp [update_segment, refresh_for, h1, h2, h3, jshow]
  refine ⟨hseg, ?_⟩
  unfold update_preprint_dumps_text
  dsimp only
  rw [hit]
  dsimp only
  have hmem2 : update_segment env (pyGet args "start_date")
        (pyGet args "end_date") (.str srv)
      ∈ servers.map (update_segment env (pyGet args "start_date")
        (pyGet args "end_date")) :=
    List.mem_map_of_mem _ hmem
  rw [hseg] at hmem2
  obtain ⟨p, q, hpq⟩ := concatAll_split _ _ hmem2
  refine ⟨"Updating preprint server dumps...\n\n" ++ p,
    q ++ "\nDump update process finished. Please restart to use updated dumps.",
    ?_⟩
  rw [hpq]
  simp [String.append_assoc]

/-- Witness for C9 at the unknown server name `foo`. -/
theorem update_unknown_server_success_witness :
    update_segment envDefault none none (.str "foo")
      = "Updating foo... ✓ Complete\n"
  ∧ ∃ p q, update_preprint_dumps_text envDefault
        [("servers", .arr [.str "foo"])] st0
      = (.ok (p ++ ("Updating foo... ✓ Complete\n") ++ q), st0) :=
  update_unknown_server_success envDefault [("servers", .arr [.str "foo"])]
    st0 "foo" [.str "foo"] rfl (by simp) (by decide)

/-- C10: two `search_scholar` calls whose arguments differ only in the
value or presence of `max_results` behave identically — the handler
reads `max_results` but never passes it on; the collaborator call
depends only on the topic (and the staged output file). -/
theorem scholar_ignores_max_results (env : Env) (s : St) (a1 a2 : Args)
    (h : ∀ k, k ≠ "max_results" → pyGet a1 k = pyGet a2 k) :
    search_scholar_text env a1 s = search_scholar_text env a2 s := by
  have ht := h "topic" (by decide)
  unfold search_scholar_text
  rw [ht]

/-- Witness for C10: dropping a concrete `max_results` value leaves the
handler's outcome unchanged. -/
theorem scholar_ignores_max_results_witness :
    search_scholar_text envDefault
        [("topic", .str "ml"), ("max_results", .num 5)] st0
      = search_scholar_text envDefault [("topic", .str "ml")] st0 := by
  refine scholar_ignores_max_results envDefault st0 _ _ ?_
  intro k hk
  by_cases hkt : k = "topic"
  · subst hkt; rfl
  · have hb1 : (k == "topic") = false := beq_eq_false_iff_ne.mpr hkt
    have hb2 : (k == "max_results") = false := beq_eq_false_iff_ne.mpr hk
    simp [pyGet, List.lookup, hb1, hb2]
